import Mathlib

/-
  Verification development for the FireCrawl MCP tool server
  (two implementation variants: `src/fire-crawl/index.ts`, here `VariantA`,
  and the second server file, here `VariantB`).

  The JavaScript source is shallowly embedded: timestamps are naturals
  (milliseconds, as returned by Date.now()), the mutable rate-limiter
  state is threaded explicitly, thrown exceptions are `Except.error`,
  and the single outbound `fetch` a call may perform is modelled by an
  oracle describing the upstream response (network throw, non-2xx HTTP
  response, or a parsed JSON body typed by the response interface the
  source casts to).
-/

/-- A JavaScript content block as returned to the MCP host:
`\x7b type: "text", text: ... \x7d`. -/
structure TextBlock where
  type : String
  text : String
  deriving DecidableEq, Repr

/-- The result of one tool call: content blocks plus the error flag. -/
structure ToolCallResult where
  content : List TextBlock
  isError : Bool
  deriving DecidableEq, Repr

/-- Untyped JavaScript values, used for the raw argument bags that the
type-guard validators inspect. -/
inductive JSValue where
  | str (s : String)
  | num (n : Int)
  | bool (b : Bool)
  | null
  | undef
  | arr (elems : List JSValue)
  | obj (fields : List (String × JSValue))

/-- Property lookup on a JavaScript object literal (first binding wins,
matching the behaviour of a parsed JSON object with distinct keys). -/
def lookupField (k : String) : List (String × JSValue) → Option JSValue
  | [] => none
  | (k₀, v) :: rest => if k₀ = k then some v else lookupField k rest

/-- JavaScript string truthiness: a present, non-empty string. -/
def strTruthy : Option String → Bool
  | some s => s ≠ ""
  | none => false

/-- JavaScript `a || b` restricted to string-or-undefined operands:
returns `a` when truthy, else `b`. -/
def jsOr (a b : Option String) : Option String :=
  match a with
  | some s => if s = "" then b else some s
  | none => b

/-- JavaScript `String.prototype.trim`: drops leading and trailing
whitespace (structural model over the character list). -/
def strTrim (s : String) : String :=
  ⟨(((s.data.dropWhile Char.isWhitespace).reverse.dropWhile Char.isWhitespace)).reverse⟩

/-- The text of a result that carries exactly one block (every result of
this server does); defaults to `""` otherwise. -/
def resultText (r : ToolCallResult) : String :=
  ((r.content.map TextBlock.text).head?).getD ""

/-- `textBeginsWith s p` decides whether the string `s` begins with the
prefix `p`. -/
def textBeginsWith (s p : String) : Bool :=
  p.data.isPrefixOf s.data

theorem isPrefixOf_append_self (l t : List Char) : l.isPrefixOf (l ++ t) = true := by
  induction l with
  | nil => simp [List.isPrefixOf]
  | cons a as ih => simp [List.isPrefixOf, ih]

theorem textBeginsWith_append (p s : String) : textBeginsWith (p ++ s) p = true := by
  have h : (p ++ s).data = p.data ++ s.data := rfl
  unfold textBeginsWith
  rw [h]
  exact isPrefixOf_append_self p.data s.data

/-- A minimal JSON value type: what `response.json()` yields on the
error path of VariantA before being re-serialised by `JSON.stringify`. -/
inductive Json where
  | str (s : String)
  | num (n : Int)
  | bool (b : Bool)
  | null
  | arr (elems : List Json)
  | obj (fields : List (String × Json))

/-- Escaping of string content inside `JSON.stringify` output. -/
def jsonEscape (s : String) : String :=
  s.data.foldl (fun acc c =>
    acc ++ (if c = '"' then "\\\"" else if c = '\\' then "\\\\"
            else if c = '\n' then "\\n" else String.singleton c)) ""

/-- The serialisation `JSON.stringify` applied to a parsed JSON value. -/
def Json.stringify : Json → String
  | .str s => "\"" ++ jsonEscape s ++ "\""
  | .num n => toString n
  | .bool b => if b then "true" else "false"
  | .null => "null"
  | .arr elems =>
      "[" ++ String.intercalate "," (elems.attach.map (fun e => Json.stringify e.1)) ++ "]"
  | .obj fields =>
      "\x7b" ++ String.intercalate ","
        (fields.attach.map (fun f => "\"" ++ jsonEscape f.1.1 ++ "\":" ++ Json.stringify f.1.2))
        ++ "\x7d"
decreasing_by
  all_goals simp_wf
  · have h1 : sizeOf e.1 < sizeOf elems := List.sizeOf_lt_of_mem e.2
    omega
  · have h1 : sizeOf f.1 < sizeOf fields := List.sizeOf_lt_of_mem f.2
    obtain ⟨⟨a, b⟩, hf⟩ := f
    simp only [Prod.mk.sizeOf_spec] at h1 ⊢
    omega

/-- The rate-limit configuration record (`RATE_LIMIT` in both sources). -/
structure RateLimitConfig where
  perSecond : Nat
  perMinute : Nat

namespace VariantA

def RATE_LIMIT : RateLimitConfig := ⟨2, 60⟩

/-- The mutable counter record of `index.ts`: a single shared
`lastReset` timestamp for both windows. -/
structure RequestCount where
  second : Nat
  minute : Nat
  lastReset : Nat
  deriving DecidableEq, Repr

/-- `checkRateLimit` of `index.ts`, state-passing form: returns whether
the call is admitted together with the updated counters.  A `false`
verdict corresponds to the source throwing `"Rate limit exceeded"`
(resets performed before the throw are kept, matching the mutation
order of the source). -/
def checkRateLimit (st : RequestCount) (now : Nat) : Bool × RequestCount :=
  let st₁ := if now - st.lastReset > 1000 then { st with second := 0, lastReset := now } else st
  let st₂ := if now - st₁.lastReset > 60000 then { st₁ with minute := 0 } else st₁
  if st₂.second ≥ RATE_LIMIT.perSecond || st₂.minute ≥ RATE_LIMIT.perMinute then
    (false, st₂)
  else
    (true, { st₂ with second := st₂.second + 1, minute := st₂.minute + 1 })

/-- Runs `checkRateLimit` once per timestamp in the list, threading the
counter state, and collects each call's verdict. -/
def runCalls (st : RequestCount) : List Nat → List Bool × RequestCount
  | [] => ([], st)
  | t :: ts =>
      let r := checkRateLimit st t
      let rest := runCalls r.2 ts
      (r.1 :: rest.1, rest.2)

/-- `isScrapeOptions` of `index.ts`: the argument bag is an object whose
`url` property is a string.  No other property is examined. -/
def isScrapeOptions (args : JSValue) : Bool :=
  match args with
  | .obj fields =>
      match lookupField "url" fields with
      | some (.str _) => true
      | _ => false
  | _ => false

/-- `isMapOptions` of `index.ts`: same check as `isScrapeOptions`. -/
def isMapOptions (args : JSValue) : Bool :=
  match args with
  | .obj fields =>
      match lookupField "url" fields with
      | some (.str _) => true
      | _ => false
  | _ => false

/-- `isCrawlOptions` of `index.ts`: same check as `isScrapeOptions`. -/
def isCrawlOptions (args : JSValue) : Bool :=
  match args with
  | .obj fields =>
      match lookupField "url" fields with
      | some (.str _) => true
      | _ => false
  | _ => false

/-- The `data` object of a `ScrapeResponse`; only the fields the code
reads are modelled, each optional since the remote JSON may omit it. -/
structure ScrapeData where
  markdown : Option String
  html : Option String
  rawHtml : Option String
  deriving DecidableEq, Repr

/-- `ScrapeResponse` of `index.ts`; `data` is optional because the
source guards with `!data.data` despite the interface typing. -/
structure ScrapeResponse where
  success : Bool
  data : Option ScrapeData
  deriving DecidableEq, Repr

/-- `MapResponse` of `index.ts`; `links` optional for the `!data.links`
guard (a present empty array is truthy in JavaScript). -/
structure MapResponse where
  success : Bool
  links : Option (List String)
  deriving DecidableEq, Repr

/-- `CrawlResponse` of `index.ts`; `id` optional-and-possibly-empty for
the truthiness guard `!data.id`. -/
structure CrawlResponse where
  success : Bool
  id : Option String
  url : String
  deriving DecidableEq, Repr

/-- The behaviour of the one `fetch` a perform function may issue:
the network call throws, or the server answers non-2xx (the error body
then being parsed by `response.json()`, which may itself throw), or the
server answers 2xx with a JSON body of the interface the code casts to
(parsing may also throw). -/
inductive FetchResult (α : Type) where
  | throws (msg : String)
  | httpError (status : Nat) (statusText : String) (bodyJson : Except String Json)
  | ok (bodyJson : Except String α)

/-- One upstream world per call: what each endpoint would answer if
contacted.  At most one component is ever consulted. -/
structure World where
  scrape : FetchResult ScrapeResponse
  map : FetchResult MapResponse
  crawl : FetchResult CrawlResponse

/-- `performScrape` of `index.ts`.  Returns the thrown-or-returned
outcome, the rate-limiter state after the call, and whether `fetch`
was reached. -/
def performScrape (st : RequestCount) (now : Nat) (w : FetchResult ScrapeResponse) :
    Except String String × RequestCount × Bool :=
  match checkRateLimit st now with
  | (false, st₁) => (.error "Rate limit exceeded", st₁, false)
  | (true, st₁) =>
      match w with
      | .throws msg => (.error msg, st₁, true)
      | .httpError status statusText bodyJson =>
          match bodyJson with
          | .error m => (.error m, st₁, true)
          | .ok j =>
              (.error ("FireCrawl API error: " ++ toString status ++ " " ++ statusText
                ++ "\n" ++ j.stringify), st₁, true)
      | .ok (.error m) => (.error m, st₁, true)
      | .ok (.ok resp) =>
          match resp.success, resp.data with
          | true, some d =>
              match jsOr (jsOr d.markdown d.html) d.rawHtml with
              | some c =>
                  if c = "" then (.error "No content received from FireCrawl API", st₁, true)
                  else (.ok (strTrim c), st₁, true)
              | none => (.error "No content received from FireCrawl API", st₁, true)
          | _, _ => (.error "Invalid response from FireCrawl API", st₁, true)

/-- `performMap` of `index.ts`. -/
def performMap (st : RequestCount) (now : Nat) (w : FetchResult MapResponse) :
    Except String (List String) × RequestCount × Bool :=
  match checkRateLimit st now with
  | (false, st₁) => (.error "Rate limit exceeded", st₁, false)
  | (true, st₁) =>
      match w with
      | .throws msg => (.error msg, st₁, true)
      | .httpError status statusText bodyJson =>
          match bodyJson with
          | .error m => (.error m, st₁, true)
          | .ok j =>
              (.error ("FireCrawl API error: " ++ toString status ++ " " ++ statusText
                ++ "\n" ++ j.stringify), st₁, true)
      | .ok (.error m) => (.error m, st₁, true)
      | .ok (.ok resp) =>
          match resp.success, resp.links with
          | true, some links => (.ok links, st₁, true)
          | _, _ => (.error "Invalid response from FireCrawl API", st₁, true)

/-- `performCrawl` of `index.ts`; the guard `!data.id` makes a present
empty-string id fail the check. -/
def performCrawl (st : RequestCount) (now : Nat) (w : FetchResult CrawlResponse) :
    Except String String × RequestCount × Bool :=
  match checkRateLimit st now with
  | (false, st₁) => (.error "Rate limit exceeded", st₁, false)
  | (true, st₁) =>
      match w with
      | .throws msg => (.error msg, st₁, true)
      | .httpError status statusText bodyJson =>
          match bodyJson with
          | .error m => (.error m, st₁, true)
          | .ok j =>
              (.error ("FireCrawl API error: " ++ toString status ++ " " ++ statusText
                ++ "\n" ++ j.stringify), st₁, true)
      | .ok (.error m) => (.error m, st₁, true)
      | .ok (.ok resp) =>
          if resp.success && strTruthy resp.id then
            (.ok ("Started crawl " ++ resp.id.getD "" ++ " for " ++ resp.url), st₁, true)
          else
            (.error "Invalid response from FireCrawl API", st₁, true)

/-- The `CallToolRequestSchema` handler of `index.ts`: dispatches on the
tool name, validates, calls the matching perform function, and converts
any thrown error `e` into the result
`\x7b content: [\x7b type: "text", text: "Error: " + e.message \x7d], isError: true \x7d`.
Returns the result, the rate-limiter state after the call, and whether a
network fetch was reached. -/
def handle (name : String) (args : Option JSValue) (st : RequestCount) (now : Nat)
    (w : World) : ToolCallResult × RequestCount × Bool :=
  match args with
  | none => (⟨[⟨"text", "Error: No arguments provided"⟩], true⟩, st, false)
  | some a =>
      if name = "fire_crawl_scrape" then
        if isScrapeOptions a then
          match performScrape st now w.scrape with
          | (.ok content, st₁, f) => (⟨[⟨"text", content⟩], false⟩, st₁, f)
          | (.error m, st₁, f) => (⟨[⟨"text", "Error: " ++ m⟩], true⟩, st₁, f)
        else (⟨[⟨"text", "Error: Invalid arguments for fire_crawl_scrape"⟩], true⟩, st, false)
      else if name = "fire_crawl_map" then
        if isMapOptions a then
          match performMap st now w.map with
          | (.ok links, st₁, f) =>
              (⟨[⟨"text", String.intercalate "\n" links⟩], false⟩, st₁, f)
          | (.error m, st₁, f) => (⟨[⟨"text", "Error: " ++ m⟩], true⟩, st₁, f)
        else (⟨[⟨"text", "Error: Invalid arguments for fire_crawl_map"⟩], true⟩, st, false)
      else if name = "fire_crawl_crawl" then
        if isCrawlOptions a then
          match performCrawl st now w.crawl with
          | (.ok msg, st₁, f) => (⟨[⟨"text", msg⟩], false⟩, st₁, f)
          | (.error m, st₁, f) => (⟨[⟨"text", "Error: " ++ m⟩], true⟩, st₁, f)
        else (⟨[⟨"text", "Error: Invalid arguments for fire_crawl_crawl"⟩], true⟩, st, false)
      else
        (⟨[⟨"text", "Unknown tool: " ++ name⟩], true⟩, st, false)

end VariantA

namespace VariantB

def RATE_LIMIT : RateLimitConfig := ⟨2, 60⟩

/-- One fixed window of the second variant: a count and its own
window-start timestamp. -/
structure RateLimit where
  count : Nat
  lastReset : Nat
  deriving DecidableEq, Repr

/-- The `rateLimits` record of the second variant: independent second
and minute windows. -/
structure RateLimits where
  second : RateLimit
  minute : RateLimit
  deriving DecidableEq, Repr

/-- `checkRateLimit` of the second variant, state-passing form. -/
def checkRateLimit (st : RateLimits) (now : Nat) : Bool × RateLimits :=
  let s := if now - st.second.lastReset > 1000 then ⟨0, now⟩ else st.second
  let m := if now - st.minute.lastReset > 60000 then ⟨0, now⟩ else st.minute
  if s.count ≥ RATE_LIMIT.perSecond || m.count ≥ RATE_LIMIT.perMinute then
    (false, ⟨s, m⟩)
  else
    (true, ⟨⟨s.count + 1, s.lastReset⟩, ⟨m.count + 1, m.lastReset⟩⟩)

/-- `isFireCrawlScrapeArgs` of the second variant: the bag is an object
whose `url` property is a string; no other property is examined. -/
def isFireCrawlScrapeArgs (args : JSValue) : Bool :=
  match args with
  | .obj fields =>
      match lookupField "url" fields with
      | some (.str _) => true
      | _ => false
  | _ => false

/-- `isFireCrawlBatchArgs` of the second variant: the bag is an object
whose `urls` property is an array; no other property is examined. -/
def isFireCrawlBatchArgs (args : JSValue) : Bool :=
  match args with
  | .obj fields =>
      match lookupField "urls" fields with
      | some (.arr _) => true
      | _ => false
  | _ => false

/-- `FireCrawlResponse` of the second variant; only the fields the
handler reads are modelled (`markdown` is what gets returned). -/
structure FireCrawlResponse where
  url : String
  title : Option String
  markdown : String
  deriving DecidableEq, Repr

/-- `BatchResponse` of the second variant: per-URL results plus a list
of failed URLs. -/
structure BatchResponse where
  results : List FireCrawlResponse
  failed : List String
  deriving DecidableEq, Repr

/-- The behaviour of the one `fetch` a perform function of the second
variant may issue; on a non-2xx response this variant reads the body
with `response.text()`, hence the plain-string body. -/
inductive FetchResult (α : Type) where
  | throws (msg : String)
  | httpError (status : Nat) (statusText : String) (bodyText : String)
  | ok (bodyJson : Except String α)

/-- One upstream world per call for the second variant. -/
structure World where
  scrape : FetchResult FireCrawlResponse
  batch : FetchResult BatchResponse

/-- `performSingleScrape` of the second variant. -/
def performSingleScrape (st : RateLimits) (now : Nat) (w : FetchResult FireCrawlResponse) :
    Except String FireCrawlResponse × RateLimits × Bool :=
  match checkRateLimit st now with
  | (false, st₁) => (.error "Rate limit exceeded", st₁, false)
  | (true, st₁) =>
      match w with
      | .throws msg => (.error msg, st₁, true)
      | .httpError status statusText bodyText =>
          (.error ("FireCrawl API error: " ++ toString status ++ " " ++ statusText
            ++ "\n" ++ bodyText), st₁, true)
      | .ok (.error m) => (.error m, st₁, true)
      | .ok (.ok resp) => (.ok resp, st₁, true)

/-- `performBatchScrape` of the second variant. -/
def performBatchScrape (st : RateLimits) (now : Nat) (w : FetchResult BatchResponse) :
    Except String BatchResponse × RateLimits × Bool :=
  match checkRateLimit st now with
  | (false, st₁) => (.error "Rate limit exceeded", st₁, false)
  | (true, st₁) =>
      match w with
      | .throws msg => (.error msg, st₁, true)
      | .httpError status statusText bodyText =>
          (.error ("FireCrawl API error: " ++ toString status ++ " " ++ statusText
            ++ "\n" ++ bodyText), st₁, true)
      | .ok (.error m) => (.error m, st₁, true)
      | .ok (.ok resp) => (.ok resp, st₁, true)

/-- The `CallToolRequestSchema` handler of the second variant: missing
arguments, validation failures and the unknown-tool case return error
results directly; each perform call sits in its own try/catch whose
handler produces `"Error: " + e.message`. -/
def handle (name : String) (args : Option JSValue) (st : RateLimits) (now : Nat)
    (w : World) : ToolCallResult × RateLimits × Bool :=
  match args with
  | none => (⟨[⟨"text", "Error: No arguments provided"⟩], true⟩, st, false)
  | some a =>
      if name = "fire_crawl_scrape" then
        if isFireCrawlScrapeArgs a then
          match performSingleScrape st now w.scrape with
          | (.ok resp, st₁, f) => (⟨[⟨"text", resp.markdown⟩], false⟩, st₁, f)
          | (.error m, st₁, f) => (⟨[⟨"text", "Error: " ++ m⟩], true⟩, st₁, f)
        else (⟨[⟨"text", "Error: Invalid arguments for single scrape"⟩], true⟩, st, false)
      else if name = "fire_crawl_batch" then
        if isFireCrawlBatchArgs a then
          match performBatchScrape st now w.batch with
          | (.ok resp, st₁, f) =>
              (⟨[⟨"text", String.intercalate "\n\n" (resp.results.map (fun r => r.markdown))⟩],
                false⟩, st₁, f)
          | (.error m, st₁, f) => (⟨[⟨"text", "Error: " ++ m⟩], true⟩, st₁, f)
        else (⟨[⟨"text", "Error: Invalid arguments for batch scrape"⟩], true⟩, st, false)
      else
        (⟨[⟨"text", "Error: Unknown tool"⟩], true⟩, st, false)

end VariantB

/-
  General rate-limiter facts used below.
-/

/-- In `index.ts` the minute counter can never decrease across a call:
the reset branch `now - lastReset > 60000` sits after the second-window
branch has already set `lastReset = now`, so it can never fire. -/
theorem variantA_minute_monotone (st : VariantA.RequestCount) (now : Nat) :
    st.minute ≤ ((VariantA.checkRateLimit st now).2).minute := by
  simp only [VariantA.checkRateLimit]
  split_ifs <;> simp_all <;> omega

/-- In the second variant, whenever more than 60000 ms have elapsed
since the minute window began, the minute window is reset to a zero
count (then incremented on success) with its start set to `now`,
independently of the second window. -/
theorem variantB_minute_resets (st : VariantB.RateLimits) (now : Nat)
    (h : now - st.minute.lastReset > 60000) :
    ((VariantB.checkRateLimit st now).2).minute =
      (if (VariantA.RATE_LIMIT).perSecond ≤
          (if now - st.second.lastReset > 1000 then 0 else st.second.count)
        then (⟨0, now⟩ : VariantB.RateLimit) else ⟨1, now⟩) := by
  simp only [VariantB.checkRateLimit, h, if_pos]
  split_ifs <;> simp_all [VariantA.RATE_LIMIT, VariantB.RATE_LIMIT]
  omega

/-- The timestamps of the C3 scenario: thirty pairs of calls spaced
1001 ms apart (so each pair opens a fresh second window and all sixty
calls are admitted), followed by one call at 61000 ms, more than a
whole minute window after the minute counting began at time 0. -/
def c3CallTimes : List Nat :=
  ((List.range 30).flatMap (fun i => [1001 * i, 1001 * i])) ++ [61000]

/-- C1: the claim says each window is reset independently once its
length has elapsed, in particular the minute window.  In `index.ts`
this fails: the minute count never decreases (first conjunct), and in
the concrete state where the minute window began at time 0 with count 5
and the call arrives at 61000 ms the counter survives the call as 6
instead of being reset. -/
theorem c1_minuteWindowNeverReset :
    (∀ (st : VariantA.RequestCount) (now : Nat),
        st.minute ≤ ((VariantA.checkRateLimit st now).2).minute) ∧
    (61000 - (0 : Nat) > 60000 ∧
      VariantA.checkRateLimit ⟨0, 5, 0⟩ 61000 = (true, ⟨1, 6, 61000⟩)) :=
  ⟨variantA_minute_monotone, by decide, by decide⟩

/-- C3: the claim's recovery property fails for the minute window of
`index.ts`: sixty calls spread as thirty 1001 ms-spaced pairs are all
admitted (filling the minute counter), and the next call at 61000 ms —
more than 60000 ms after the minute counting began at time 0 — is still
rejected, because the minute counter is never reset. -/
theorem c3_minuteLimitNeverRecovers :
    (VariantA.runCalls ⟨0, 0, 0⟩ c3CallTimes).1 = List.replicate 60 true ++ [false] ∧
    61000 - (0 : Nat) > 60000 ∧
    ((VariantA.runCalls ⟨0, 0, 0⟩ c3CallTimes).2).minute = 60 := by
  refine ⟨by decide, by decide, by decide⟩

/-
  Dispatcher-level helper lemmas.
-/

/-- Every result of the `index.ts` handler is either a success or an
error whose text starts with "Error: " or "Unknown tool: ". -/
theorem handleA_cases (name : String) (args : Option JSValue) (st : VariantA.RequestCount)
    (now : Nat) (w : VariantA.World) :
    ((VariantA.handle name args st now w).1).isError = false ∨
    textBeginsWith (resultText (VariantA.handle name args st now w).1) "Error: " = true ∨
    textBeginsWith (resultText (VariantA.handle name args st now w).1) "Unknown tool: " = true := by
  unfold VariantA.handle
  repeat' split
  all_goals first
    | exact Or.inl rfl
    | exact Or.inr (Or.inl (textBeginsWith_append "Error: " _))
    | exact Or.inr (Or.inr (textBeginsWith_append "Unknown tool: " _))

/-- Every result of the second variant's handler is either a success or
an error whose text starts with "Error: ". -/
theorem handleB_cases (name : String) (args : Option JSValue) (st : VariantB.RateLimits)
    (now : Nat) (w : VariantB.World) :
    ((VariantB.handle name args st now w).1).isError = false ∨
    textBeginsWith (resultText (VariantB.handle name args st now w).1) "Error: " = true := by
  unfold VariantB.handle
  repeat' split
  all_goals first
    | exact Or.inl rfl
    | exact Or.inr (textBeginsWith_append "Error: " _)

/-- C2, counterexample: the claimed equivalence fails in both
directions.  In `index.ts` the unknown-tool result is an error whose
text `"Unknown tool: ..."` carries neither claimed prefix, and in the
second variant a successful scrape whose upstream markdown happens to
begin with "Error: " yields a non-error result carrying the prefix. -/
theorem c2_prefixIffFails :
    ((VariantA.handle "fire_crawl_extract" (some (.obj [])) ⟨0, 0, 0⟩ 0
        ⟨.throws "boom", .throws "boom", .throws "boom"⟩).1 =
      ⟨[⟨"text", "Unknown tool: fire_crawl_extract"⟩], true⟩ ∧
     textBeginsWith "Unknown tool: fire_crawl_extract" "Error: " = false ∧
     textBeginsWith "Unknown tool: fire_crawl_extract" "FireCrawl API error: " = false) ∧
    ((VariantB.handle "fire_crawl_scrape" (some (.obj [("url", .str "https://example.com")]))
        ⟨⟨0, 0⟩, ⟨0, 0⟩⟩ 0
        ⟨.ok (.ok ⟨"https://example.com", none, "Error: upstream markdown"⟩), .throws "boom"⟩).1 =
      ⟨[⟨"text", "Error: upstream markdown"⟩], false⟩ ∧
     textBeginsWith "Error: upstream markdown" "Error: " = true) := by
  decide

/-- C2, amended: every error result's text begins with "Error: ",
"FireCrawl API error: " or "Unknown tool: " (successful results may
coincidentally begin with such a prefix when the upstream content
does). -/
theorem c2_errorTextPrefixed :
    (∀ (name : String) (args : Option JSValue) (st : VariantA.RequestCount) (now : Nat)
        (w : VariantA.World),
      ((VariantA.handle name args st now w).1).isError = true →
        textBeginsWith (resultText (VariantA.handle name args st now w).1) "Error: " = true ∨
        textBeginsWith (resultText (VariantA.handle name args st now w).1)
          "FireCrawl API error: " = true ∨
        textBeginsWith (resultText (VariantA.handle name args st now w).1)
          "Unknown tool: " = true) ∧
    (∀ (name : String) (args : Option JSValue) (st : VariantB.RateLimits) (now : Nat)
        (w : VariantB.World),
      ((VariantB.handle name args st now w).1).isError = true →
        textBeginsWith (resultText (VariantB.handle name args st now w).1) "Error: " = true ∨
        textBeginsWith (resultText (VariantB.handle name args st now w).1)
          "FireCrawl API error: " = true ∨
        textBeginsWith (resultText (VariantB.handle name args st now w).1)
          "Unknown tool: " = true) := by
  constructor
  · intro name args st now w h
    rcases handleA_cases name args st now w with hf | hp | hp
    · rw [hf] at h
      exact absurd h (by decide)
    · exact Or.inl hp
    · exact Or.inr (Or.inr hp)
  · intro name args st now w h
    rcases handleB_cases name args st now w with hf | hp
    · rw [hf] at h
      exact absurd h (by decide)
    · exact Or.inl hp

/-- Witness for the amended C2: a concrete unknown-tool call of the
second variant is an error and its text is prefixed. -/
theorem c2_errorTextPrefixed_witness :
    textBeginsWith (resultText (VariantB.handle "fire_crawl_status" none ⟨⟨0, 0⟩, ⟨0, 0⟩⟩ 0
        ⟨.throws "boom", .throws "boom"⟩).1) "Error: " = true ∨
    textBeginsWith (resultText (VariantB.handle "fire_crawl_status" none ⟨⟨0, 0⟩, ⟨0, 0⟩⟩ 0
        ⟨.throws "boom", .throws "boom"⟩).1) "FireCrawl API error: " = true ∨
    textBeginsWith (resultText (VariantB.handle "fire_crawl_status" none ⟨⟨0, 0⟩, ⟨0, 0⟩⟩ 0
        ⟨.throws "boom", .throws "boom"⟩).1) "Unknown tool: " = true :=
  c2_errorTextPrefixed.2 "fire_crawl_status" none ⟨⟨0, 0⟩, ⟨0, 0⟩⟩ 0
    ⟨.throws "boom", .throws "boom"⟩ (by decide)

/-- C9: for every tool name, argument bag (present or missing), state
and upstream behaviour — including thrown network and parse exceptions —
both handlers return a plain result whose content is exactly one text
block.  Totality of the embedded handler mirrors the source's outermost
try/catch: no input reaches an uncaught throw. -/
theorem c9_uniformResultShape :
    (∀ (name : String) (args : Option JSValue) (st : VariantA.RequestCount) (now : Nat)
        (w : VariantA.World), ∃ t : String,
        ((VariantA.handle name args st now w).1).content = [⟨"text", t⟩]) ∧
    (∀ (name : String) (args : Option JSValue) (st : VariantB.RateLimits) (now : Nat)
        (w : VariantB.World), ∃ t : String,
        ((VariantB.handle name args st now w).1).content = [⟨"text", t⟩]) := by
  constructor
  · intro name args st now w
    unfold VariantA.handle
    repeat' split
    all_goals exact ⟨_, rfl⟩
  · intro name args st now w
    unfold VariantB.handle
    repeat' split
    all_goals exact ⟨_, rfl⟩

/-- C4: an unknown tool name or a validation failure yields an error
result while reaching no network fetch and leaving every rate-limiter
counter and window timestamp untouched, in both variants. -/
theorem c4_shortCircuitNoFetchNoRateUse :
    (∀ (name : String) (a : JSValue) (st : VariantA.RequestCount) (now : Nat)
        (w : VariantA.World),
      ((name ≠ "fire_crawl_scrape" ∧ name ≠ "fire_crawl_map" ∧ name ≠ "fire_crawl_crawl") ∨
       (name = "fire_crawl_scrape" ∧ VariantA.isScrapeOptions a = false) ∨
       (name = "fire_crawl_map" ∧ VariantA.isMapOptions a = false) ∨
       (name = "fire_crawl_crawl" ∧ VariantA.isCrawlOptions a = false)) →
      ((VariantA.handle name (some a) st now w).1).isError = true ∧
      (VariantA.handle name (some a) st now w).2.1 = st ∧
      (VariantA.handle name (some a) st now w).2.2 = false) ∧
    (∀ (name : String) (a : JSValue) (st : VariantB.RateLimits) (now : Nat)
        (w : VariantB.World),
      ((name ≠ "fire_crawl_scrape" ∧ name ≠ "fire_crawl_batch") ∨
       (name = "fire_crawl_scrape" ∧ VariantB.isFireCrawlScrapeArgs a = false) ∨
       (name = "fire_crawl_batch" ∧ VariantB.isFireCrawlBatchArgs a = false)) →
      ((VariantB.handle name (some a) st now w).1).isError = true ∧
      (VariantB.handle name (some a) st now w).2.1 = st ∧
      (VariantB.handle name (some a) st now w).2.2 = false) := by
  constructor
  · intro name a st now w hcase
    rcases hcase with ⟨h1, h2, h3⟩ | ⟨h1, hv⟩ | ⟨h1, hv⟩ | ⟨h1, hv⟩
    · simp [VariantA.handle, h1, h2, h3]
    · subst h1
      simp [VariantA.handle, hv]
    · subst h1
      simp [VariantA.handle, hv]
    · subst h1
      simp [VariantA.handle, hv]
  · intro name a st now w hcase
    rcases hcase with ⟨h1, h2⟩ | ⟨h1, hv⟩ | ⟨h1, hv⟩
    · simp [VariantB.handle, h1, h2]
    · subst h1
      simp [VariantB.handle, hv]
    · subst h1
      simp [VariantB.handle, hv]

/-- Witness for C4: a scrape call with an empty argument object in
`index.ts`, and an unknown tool name in the second variant. -/
theorem c4_shortCircuitNoFetchNoRateUse_witness :
    (((VariantA.handle "fire_crawl_scrape" (some (JSValue.obj [])) ⟨0, 1, 2⟩ 5
        ⟨.throws "x", .throws "x", .throws "x"⟩).1).isError = true ∧
      (VariantA.handle "fire_crawl_scrape" (some (JSValue.obj [])) ⟨0, 1, 2⟩ 5
        ⟨.throws "x", .throws "x", .throws "x"⟩).2.1 = ⟨0, 1, 2⟩ ∧
      (VariantA.handle "fire_crawl_scrape" (some (JSValue.obj [])) ⟨0, 1, 2⟩ 5
        ⟨.throws "x", .throws "x", .throws "x"⟩).2.2 = false) ∧
    (((VariantB.handle "fire_crawl_status" (some (JSValue.obj [])) ⟨⟨0, 3⟩, ⟨4, 5⟩⟩ 9
        ⟨.throws "x", .throws "x"⟩).1).isError = true ∧
      (VariantB.handle "fire_crawl_status" (some (JSValue.obj [])) ⟨⟨0, 3⟩, ⟨4, 5⟩⟩ 9
        ⟨.throws "x", .throws "x"⟩).2.1 = ⟨⟨0, 3⟩, ⟨4, 5⟩⟩ ∧
      (VariantB.handle "fire_crawl_status" (some (JSValue.obj [])) ⟨⟨0, 3⟩, ⟨4, 5⟩⟩ 9
        ⟨.throws "x", .throws "x"⟩).2.2 = false) :=
  ⟨c4_shortCircuitNoFetchNoRateUse.1 "fire_crawl_scrape" (JSValue.obj []) ⟨0, 1, 2⟩ 5
      ⟨.throws "x", .throws "x", .throws "x"⟩ (Or.inr (Or.inl ⟨rfl, by decide⟩)),
   c4_shortCircuitNoFetchNoRateUse.2 "fire_crawl_status" (JSValue.obj []) ⟨⟨0, 3⟩, ⟨4, 5⟩⟩ 9
      ⟨.throws "x", .throws "x"⟩ (Or.inl ⟨by decide, by decide⟩)⟩

/-
  Content selection (scrape response mapping).
-/

/-- The content-selection rule as the spec's sentence literally states
it — the first *present* field of `data` in priority order markdown →
html → rawHtml — written for comparison with the code's
truthiness-based selection. -/
def specFirstPresentContent (d : VariantA.ScrapeData) : Option String :=
  match d.markdown with
  | some s => some s
  | none =>
      match d.html with
      | some s => some s
      | none => d.rawHtml

/-- The selection the code actually performs, phrased directly: the
first field that is present *and* non-empty. -/
def firstNonEmptyContent (d : VariantA.ScrapeData) : Option String :=
  if strTruthy d.markdown then d.markdown
  else if strTruthy d.html then d.html
  else if strTruthy d.rawHtml then d.rawHtml
  else none

/-- The `||`-chain of `performScrape` agrees with the first
present-and-non-empty field whenever one exists. -/
theorem jsOr_chain_of_firstNonEmpty (d : VariantA.ScrapeData) (c : String)
    (h : firstNonEmptyContent d = some c) :
    jsOr (jsOr d.markdown d.html) d.rawHtml = some c ∧ c ≠ "" := by
  rcases d with ⟨md, html, raw⟩
  rcases md with _ | m <;> rcases html with _ | hh <;> rcases raw with _ | r <;>
    simp_all [firstNonEmptyContent, strTruthy, jsOr] <;>
    (try split_ifs at h ⊢) <;> (try simp_all) <;>
    (try (obtain ⟨hne, rfl⟩ := h; exact hne))

/-- A field that JavaScript treats as falsy here: absent or the empty
string. -/
def emptyOrAbsent (o : Option String) : Prop := o = none ∨ o = some ""

/-- An empty-string markdown field is skipped exactly as if it were
absent: the handler result is unchanged when `markdown = some ""` is
replaced by `none`. -/
theorem scrapeSkipsEmptyMarkdown :
    ∀ (a : JSValue) (st : VariantA.RequestCount) (now : Nat) (d : VariantA.ScrapeData)
      (wm : VariantA.FetchResult VariantA.MapResponse)
      (wc : VariantA.FetchResult VariantA.CrawlResponse),
      VariantA.isScrapeOptions a = true →
      d.markdown = some "" →
      VariantA.handle "fire_crawl_scrape" (some a) st now
          ⟨.ok (.ok ⟨true, some d⟩), wm, wc⟩ =
        VariantA.handle "fire_crawl_scrape" (some a) st now
          ⟨.ok (.ok ⟨true, some { d with markdown := none }⟩), wm, wc⟩ := by
  intro a st now d wm wc hv hmd
  rcases d with ⟨md, html, raw⟩
  simp only at hmd
  subst hmd
  simp only [VariantA.handle, hv, VariantA.performScrape, reduceIte, if_true]
  rcases VariantA.checkRateLimit st now with ⟨b, st₁⟩
  cases b
  · rfl
  · simp [jsOr]

/-- When markdown, html and rawHtml are all absent or empty, the scrape
call fails with "No content received from FireCrawl API". -/
theorem scrapeAllFalsyContentFails :
    ∀ (a : JSValue) (st : VariantA.RequestCount) (now : Nat) (d : VariantA.ScrapeData)
      (wm : VariantA.FetchResult VariantA.MapResponse)
      (wc : VariantA.FetchResult VariantA.CrawlResponse),
      VariantA.isScrapeOptions a = true →
      (VariantA.checkRateLimit st now).1 = true →
      emptyOrAbsent d.markdown → emptyOrAbsent d.html → emptyOrAbsent d.rawHtml →
      (VariantA.handle "fire_crawl_scrape" (some a) st now
          ⟨.ok (.ok ⟨true, some d⟩), wm, wc⟩).1 =
        ⟨[⟨"text", "Error: No content received from FireCrawl API"⟩], true⟩ := by
  intro a st now d wm wc hv hr h1 h2 h3
  rcases d with ⟨md, html, raw⟩
  simp only [emptyOrAbsent] at h1 h2 h3
  simp only [VariantA.handle, hv, VariantA.performScrape, reduceIte, if_true]
  rcases hcr : VariantA.checkRateLimit st now with ⟨b, st₁⟩
  rw [hcr] at hr
  dsimp at hr
  subst hr
  rcases h1 with h1 | h1 <;> rcases h2 with h2 | h2 <;> rcases h3 with h3 | h3 <;>
    subst h1 <;> subst h2 <;> subst h3 <;> simp [jsOr]

/-- C7, counterexample: with a present-but-empty markdown field next to
a non-empty html field, the code returns the html (truthiness
selection), while the claim's first-*present*-field rule would return
the trimmed empty markdown. -/
theorem c7_emptyMarkdownSkipped :
    (VariantA.handle "fire_crawl_scrape" (some (.obj [("url", .str "https://example.com")]))
        ⟨0, 0, 0⟩ 0 ⟨.ok (.ok ⟨true, some ⟨some "", some "<p>hi</p>", none⟩⟩),
          .throws "x", .throws "x"⟩).1 =
      ⟨[⟨"text", "<p>hi</p>"⟩], false⟩ ∧
    (specFirstPresentContent ⟨some "", some "<p>hi</p>", none⟩).map strTrim = some "" ∧
    ("<p>hi</p>" : String) ≠ "" := by
  decide

/-- C7, amended: for a successful scrape payload the result is the
trimmed first present-and-non-empty field in priority order markdown →
html → rawHtml, wrapped as one text block with `isError = false`. -/
theorem c7_firstNonEmptySelected :
    ∀ (a : JSValue) (st : VariantA.RequestCount) (now : Nat) (d : VariantA.ScrapeData)
      (c : String) (wm : VariantA.FetchResult VariantA.MapResponse)
      (wc : VariantA.FetchResult VariantA.CrawlResponse),
      VariantA.isScrapeOptions a = true →
      (VariantA.checkRateLimit st now).1 = true →
      firstNonEmptyContent d = some c →
      (VariantA.handle "fire_crawl_scrape" (some a) st now
          ⟨.ok (.ok ⟨true, some d⟩), wm, wc⟩).1 =
        ⟨[⟨"text", strTrim c⟩], false⟩ := by
  intro a st now d c wm wc hv hr hco
  obtain ⟨hchain, hne⟩ := jsOr_chain_of_firstNonEmpty d c hco
  simp only [VariantA.handle, hv, VariantA.performScrape, reduceIte, if_true]
  rcases hcr : VariantA.checkRateLimit st now with ⟨b, st₁⟩
  rw [hcr] at hr
  dsimp at hr
  subst hr
  simp [hchain, hne]

/-- Witness for the amended C7: the spec's own scenario, a payload with
markdown "# Example", yields exactly that text with no error. -/
theorem c7_firstNonEmptySelected_witness :
    (VariantA.handle "fire_crawl_scrape"
        (some (JSValue.obj [("url", JSValue.str "https://example.com")])) ⟨0, 0, 0⟩ 0
        ⟨.ok (.ok ⟨true, some ⟨some "# Example", none, none⟩⟩), .throws "x", .throws "x"⟩).1 =
      ⟨[⟨"text", strTrim "# Example"⟩], false⟩ ∧
    strTrim "# Example" = "# Example" :=
  ⟨c7_firstNonEmptySelected _ _ _ _ _ _ _ (by decide) (by decide) (by decide), by decide⟩

/-- C10: content presence is decided by truthiness.  First conjunct: an
empty-string markdown field is skipped exactly as if it were absent
(so selection falls through to html, then rawHtml).  Second conjunct:
when all three fields are absent or empty strings the call fails with
"No content received from FireCrawl API" even though fields may be
present. -/
theorem c10_truthyContentSelection :
    (∀ (a : JSValue) (st : VariantA.RequestCount) (now : Nat) (d : VariantA.ScrapeData)
        (wm : VariantA.FetchResult VariantA.MapResponse)
        (wc : VariantA.FetchResult VariantA.CrawlResponse),
      VariantA.isScrapeOptions a = true →
      d.markdown = some "" →
      VariantA.handle "fire_crawl_scrape" (some a) st now
          ⟨.ok (.ok ⟨true, some d⟩), wm, wc⟩ =
        VariantA.handle "fire_crawl_scrape" (some a) st now
          ⟨.ok (.ok ⟨true, some { d with markdown := none }⟩), wm, wc⟩) ∧
    (∀ (a : JSValue) (st : VariantA.RequestCount) (now : Nat) (d : VariantA.ScrapeData)
        (wm : VariantA.FetchResult VariantA.MapResponse)
        (wc : VariantA.FetchResult VariantA.CrawlResponse),
      VariantA.isScrapeOptions a = true →
      (VariantA.checkRateLimit st now).1 = true →
      emptyOrAbsent d.markdown → emptyOrAbsent d.html → emptyOrAbsent d.rawHtml →
      (VariantA.handle "fire_crawl_scrape" (some a) st now
          ⟨.ok (.ok ⟨true, some d⟩), wm, wc⟩).1 =
        ⟨[⟨"text", "Error: No content received from FireCrawl API"⟩], true⟩) :=
  ⟨scrapeSkipsEmptyMarkdown, scrapeAllFalsyContentFails⟩

/-- Witness for C10: a payload with markdown `""` and rawHtml "raw"
behaves as if markdown were absent, and a payload whose three fields
are `""`, `""`, absent fails with the no-content error. -/
theorem c10_truthyContentSelection_witness :
    (VariantA.handle "fire_crawl_scrape" (some (JSValue.obj [("url", JSValue.str "u")]))
        ⟨0, 0, 0⟩ 0 ⟨.ok (.ok ⟨true, some ⟨some "", none, some "raw"⟩⟩),
          .throws "x", .throws "x"⟩ =
      VariantA.handle "fire_crawl_scrape" (some (JSValue.obj [("url", JSValue.str "u")]))
        ⟨0, 0, 0⟩ 0 ⟨.ok (.ok ⟨true, some ⟨none, none, some "raw"⟩⟩),
          .throws "x", .throws "x"⟩) ∧
    ((VariantA.handle "fire_crawl_scrape" (some (JSValue.obj [("url", JSValue.str "u")]))
        ⟨0, 0, 0⟩ 0 ⟨.ok (.ok ⟨true, some ⟨some "", some "", none⟩⟩),
          .throws "x", .throws "x"⟩).1 =
      ⟨[⟨"text", "Error: No content received from FireCrawl API"⟩], true⟩) :=
  ⟨c10_truthyContentSelection.1 _ _ _ _ _ _ (by decide) (by decide),
   c10_truthyContentSelection.2 _ _ _ _ _ _ (by decide) (by decide)
     (Or.inr rfl) (Or.inr rfl) (Or.inl rfl)⟩

/-
  Upstream HTTP failure text, validators, and batch joining.
-/

/-- C5, counterexample: for the claimed scenario (400, "Bad Request",
body "Invalid URL") the result text is not exactly
"FireCrawl API error: 400 Bad Request\nInvalid URL" — the handler
prepends "Error: " when it catches the thrown upstream error. -/
theorem c5_resultTextHasErrorWrapper :
    (VariantB.handle "fire_crawl_scrape" (some (.obj [("url", .str "invalid-url")]))
        ⟨⟨0, 0⟩, ⟨0, 0⟩⟩ 0 ⟨.httpError 400 "Bad Request" "Invalid URL", .throws "x"⟩).1 =
      ⟨[⟨"text", "Error: FireCrawl API error: 400 Bad Request\nInvalid URL"⟩], true⟩ ∧
    "Error: FireCrawl API error: 400 Bad Request\nInvalid URL" ≠
      "FireCrawl API error: 400 Bad Request\nInvalid URL" := by
  decide

/-- C5, amended: in the variant that reads the error body as text
(`performSingleScrape`), a non-2xx upstream response yields an error
result whose text is "Error: " followed by
"FireCrawl API error: <status> <statusText>\n<body>". -/
theorem c5_httpErrorText :
    ∀ (a : JSValue) (st : VariantB.RateLimits) (now status : Nat)
      (statusText bodyText : String) (wb : VariantB.FetchResult VariantB.BatchResponse),
      VariantB.isFireCrawlScrapeArgs a = true →
      (VariantB.checkRateLimit st now).1 = true →
      (VariantB.handle "fire_crawl_scrape" (some a) st now
          ⟨.httpError status statusText bodyText, wb⟩).1 =
        ⟨[⟨"text", "Error: " ++ ("FireCrawl API error: " ++ toString status ++ " " ++ statusText
            ++ "\n" ++ bodyText)⟩], true⟩ := by
  intro a st now status statusText bodyText wb hv hr
  simp only [VariantB.handle, hv, VariantB.performSingleScrape, reduceIte, if_true]
  rcases hcr : VariantB.checkRateLimit st now with ⟨b, st₁⟩
  rw [hcr] at hr
  dsimp at hr
  subst hr
  rfl

/-- Witness for the amended C5: exactly the claimed scenario. -/
theorem c5_httpErrorText_witness :
    (VariantB.handle "fire_crawl_scrape" (some (JSValue.obj [("url", JSValue.str "invalid-url")]))
        ⟨⟨0, 0⟩, ⟨0, 0⟩⟩ 0 ⟨.httpError 400 "Bad Request" "Invalid URL", .throws "x"⟩).1 =
      ⟨[⟨"text", "Error: " ++ ("FireCrawl API error: " ++ toString 400 ++ " " ++ "Bad Request"
          ++ "\n" ++ "Invalid URL")⟩], true⟩ :=
  c5_httpErrorText (JSValue.obj [("url", JSValue.str "invalid-url")]) ⟨⟨0, 0⟩, ⟨0, 0⟩⟩ 0 400
    "Bad Request" "Invalid URL" (.throws "x") (by decide) (by decide)

/-- C6, counterexample: bags whose optional fields have the wrong
primitive type (string `timeout`, non-array `formats`) are accepted by
the validators, contradicting the claimed rejection. -/
theorem c6_optionalFieldsUnchecked :
    VariantA.isScrapeOptions (.obj [("url", .str "https://example.com"),
      ("timeout", .str "5000")]) = true ∧
    VariantA.isScrapeOptions (.obj [("url", .str "https://example.com"),
      ("formats", .str "markdown")]) = true ∧
    VariantB.isFireCrawlScrapeArgs (.obj [("url", .str "https://example.com"),
      ("timeout", .str "5000")]) = true := by
  decide

/-- Characterisation of the url-based validators of `index.ts`. -/
theorem isScrapeOptions_iff (args : JSValue) :
    VariantA.isScrapeOptions args = true ↔
      ∃ fields s, args = JSValue.obj fields ∧ lookupField "url" fields = some (.str s) := by
  cases args <;> simp [VariantA.isScrapeOptions]
  case obj fields =>
    rcases hlk : lookupField "url" fields with _ | v
    · simp [hlk]
    · cases v <;> simp [hlk]

/-- Characterisation of the batch validator of the second variant. -/
theorem isBatchArgs_iff (args : JSValue) :
    VariantB.isFireCrawlBatchArgs args = true ↔
      ∃ fields us, args = JSValue.obj fields ∧ lookupField "urls" fields = some (.arr us) := by
  cases args <;> simp [VariantB.isFireCrawlBatchArgs]
  case obj fields =>
    rcases hlk : lookupField "urls" fields with _ | v
    · simp [hlk]
    · cases v <;> simp [hlk]

/-- C6, amended: every validator accepts a bag exactly when the
required field is present with its required type (a string `url`, or an
array `urls` for batch); optional fields are never examined, so adding
a binding under any other key leaves the verdict unchanged. -/
theorem c6_requiredFieldOnlyValidation :
    (∀ args : JSValue,
       (VariantA.isScrapeOptions args = true ↔
         ∃ fields s, args = JSValue.obj fields ∧ lookupField "url" fields = some (.str s)) ∧
       VariantA.isMapOptions args = VariantA.isScrapeOptions args ∧
       VariantA.isCrawlOptions args = VariantA.isScrapeOptions args ∧
       VariantB.isFireCrawlScrapeArgs args = VariantA.isScrapeOptions args ∧
       (VariantB.isFireCrawlBatchArgs args = true ↔
         ∃ fields us, args = JSValue.obj fields ∧ lookupField "urls" fields = some (.arr us))) ∧
    (∀ (fields : List (String × JSValue)) (k : String) (v : JSValue),
       k ≠ "url" →
       VariantA.isScrapeOptions (JSValue.obj ((k, v) :: fields)) =
         VariantA.isScrapeOptions (JSValue.obj fields)) :=
  ⟨fun args => ⟨isScrapeOptions_iff args, rfl, rfl, rfl, isBatchArgs_iff args⟩,
   fun fields k v hk => by simp [VariantA.isScrapeOptions, lookupField, hk]⟩

/-- Witness for the amended C6: prepending a wrongly-typed `timeout`
binding leaves the scrape validator's verdict unchanged. -/
theorem c6_requiredFieldOnlyValidation_witness :
    VariantA.isScrapeOptions (JSValue.obj (("timeout", JSValue.str "5000") ::
        [("url", JSValue.str "https://example.com")])) =
      VariantA.isScrapeOptions (JSValue.obj [("url", JSValue.str "https://example.com")]) :=
  c6_requiredFieldOnlyValidation.2 [("url", JSValue.str "https://example.com")]
    "timeout" (JSValue.str "5000") (by decide)

/-- C8: for a batch call whose upstream response parses to a results
list and a failed list, the result text joins the sub-results' markdown
fields with a blank-line separator, `isError` is false, and the failed
list has no effect on anything the handler returns. -/
theorem c8_batchJoinIgnoresFailed :
    ∀ (a : JSValue) (st : VariantB.RateLimits) (now : Nat)
      (rs : List VariantB.FireCrawlResponse) (fs fs₂ : List String)
      (ws : VariantB.FetchResult VariantB.FireCrawlResponse),
      VariantB.isFireCrawlBatchArgs a = true →
      (VariantB.checkRateLimit st now).1 = true →
      (VariantB.handle "fire_crawl_batch" (some a) st now ⟨ws, .ok (.ok ⟨rs, fs⟩)⟩).1 =
        ⟨[⟨"text", String.intercalate "\n\n" (rs.map VariantB.FireCrawlResponse.markdown)⟩],
          false⟩ ∧
      VariantB.handle "fire_crawl_batch" (some a) st now ⟨ws, .ok (.ok ⟨rs, fs⟩)⟩ =
        VariantB.handle "fire_crawl_batch" (some a) st now ⟨ws, .ok (.ok ⟨rs, fs₂⟩)⟩ := by
  intro a st now rs fs fs₂ ws hv hr
  simp only [VariantB.handle, VariantB.performBatchScrape, hv, String.reduceEq, reduceIte]
  rcases hcr : VariantB.checkRateLimit st now with ⟨b, st₁⟩
  rw [hcr] at hr
  dsimp at hr
  subst hr
  exact ⟨rfl, rfl⟩

/-- Witness for C8: two results with markdown "A" and "B" and a
non-empty failed list produce exactly "A\n\nB", identical to the run
with an empty failed list. -/
theorem c8_batchJoinIgnoresFailed_witness :
    ((VariantB.handle "fire_crawl_batch"
        (some (JSValue.obj [("urls", JSValue.arr [JSValue.str "u1", JSValue.str "u2"])]))
        ⟨⟨0, 0⟩, ⟨0, 0⟩⟩ 0
        ⟨.throws "x", .ok (.ok ⟨[⟨"u1", none, "A"⟩, ⟨"u2", none, "B"⟩], ["bad"]⟩)⟩).1 =
      ⟨[⟨"text", String.intercalate "\n\n"
          ([⟨"u1", none, "A"⟩, ⟨"u2", none, "B"⟩].map VariantB.FireCrawlResponse.markdown)⟩],
        false⟩ ∧
    VariantB.handle "fire_crawl_batch"
        (some (JSValue.obj [("urls", JSValue.arr [JSValue.str "u1", JSValue.str "u2"])]))
        ⟨⟨0, 0⟩, ⟨0, 0⟩⟩ 0
        ⟨.throws "x", .ok (.ok ⟨[⟨"u1", none, "A"⟩, ⟨"u2", none, "B"⟩], ["bad"]⟩)⟩ =
      VariantB.handle "fire_crawl_batch"
        (some (JSValue.obj [("urls", JSValue.arr [JSValue.str "u1", JSValue.str "u2"])]))
        ⟨⟨0, 0⟩, ⟨0, 0⟩⟩ 0
        ⟨.throws "x", .ok (.ok ⟨[⟨"u1", none, "A"⟩, ⟨"u2", none, "B"⟩], []⟩)⟩) ∧
    String.intercalate "\n\n"
        ([⟨"u1", none, "A"⟩, ⟨"u2", none, "B"⟩].map VariantB.FireCrawlResponse.markdown) =
      "A\n\nB" :=
  ⟨c8_batchJoinIgnoresFailed _ _ _ _ _ _ _ (by decide) (by decide), by decide⟩
